import Mathlib

/-!
Verification of the machinery API result backend (v1/backends/api/api.go).

The backend talks to a remote state store over HTTP through a process-global
gentleman client.  The embedding models one request/response exchange as a
function from requests to either a transport failure or a response, and each
backend operation returns its result together with the list of requests it
issued, so that absence of network activity is provable.
-/

/-- JSON values as delivered by the store and produced by the client when
serializing request bodies.  Object fields are kept in construction order; no
property below depends on field order. -/
inductive JsonVal where
  | null
  | bool (b : Bool)
  | num (n : Int)
  | str (s : String)
  | arr (elems : List JsonVal)
  | obj (fields : List (String × JsonVal))

/-- One HTTP request as assembled by the gentleman client: the method, the path
with its parameters already substituted, the repeated query parameters in
order, and the JSON body when one is attached. -/
structure Request where
  method : String
  path : String
  query : List (String × String)
  body : Option JsonVal

/-- One HTTP response: the status code, the raw body text as rendered by
resp.String, and the JSON parse of that body (none when the body is not valid
JSON). -/
structure Response where
  statusCode : Nat
  raw : String
  body : Option JsonVal

/-- The remote store behind the process-global HTTPClient: one transport
exchange, either failing at the transport level (with the transport error
message) or yielding a response. -/
abbrev Store := Request → Except String Response

/-- Decode failures of encoding/json as exercised by the backend. -/
inductive DecodeError where
  | badJson
  | typeMismatch
  | invalidUnmarshal
deriving DecidableEq

/-- Errors returned by the backend operations, mirroring how the source
constructs them: transport errors passed through unchanged, errors.Errorf
messages, errors.Wrap around a decode failure, and decode failures returned
unwrapped. -/
inductive ApiError where
  | transport (msg : String)
  | message (msg : String)
  | wrap (msg : String) (cause : DecodeError)
  | decode (cause : DecodeError)
deriving DecidableEq

/-- Modelled from the spec: the task signature of the tasks package (not under
src/); only the fields the backend reads are kept: Name, UUID and GroupUUID. -/
structure Signature where
  name : String
  uuid : String
  groupUUID : String

/-- Modelled from the spec: one typed result value of a successful task. -/
structure TaskResult where
  type : String
  value : JsonVal

/-- Modelled from the spec: the TaskState record of the tasks package (not
under src/): task identity, status, the ordered result values (present for
SUCCESS) and the error string (present for FAILURE). -/
structure TaskState where
  taskUUID : String
  taskName : String
  groupUUID : String
  state : String
  results : List TaskResult
  error : String

/-- Modelled from the spec: the GroupMeta record of the tasks package (not
under src/): the group id, its immutable task UUID list and the
chord-triggered latch. -/
structure GroupMeta where
  groupUUID : String
  taskUUIDs : List String
  chordTriggered : Bool

def statePending : String := "PENDING"

def stateReceived : String := "RECEIVED"

def stateStarted : String := "STARTED"

def stateRetry : String := "RETRY"

def stateSuccess : String := "SUCCESS"

def stateFailure : String := "FAILURE"

/-- Task names equal to this constant bypass the store entirely. -/
def stageTrigger : String := "stage_trigger"

/-- Modelled from the spec: tasks.TaskState.IsCompleted (not under src/) — a
state is completed exactly when it is terminal, SUCCESS or FAILURE. -/
def TaskState.IsCompleted (ts : TaskState) : Bool :=
  ts.state = stateSuccess || ts.state = stateFailure

/-- Modelled from the spec: tasks.NewReceivedTaskState (not under src/), the
RECEIVED snapshot for a signature. -/
def NewReceivedTaskState (signature : Signature) : TaskState :=
  { taskUUID := signature.uuid, taskName := signature.name
    groupUUID := signature.groupUUID, state := stateReceived
    results := [], error := "" }

/-- Modelled from the spec: tasks.NewStartedTaskState (not under src/), the
STARTED snapshot for a signature. -/
def NewStartedTaskState (signature : Signature) : TaskState :=
  { taskUUID := signature.uuid, taskName := signature.name
    groupUUID := signature.groupUUID, state := stateStarted
    results := [], error := "" }

/-- Modelled from the spec: tasks.NewRetryTaskState (not under src/), the RETRY
snapshot for a signature. -/
def NewRetryTaskState (signature : Signature) : TaskState :=
  { taskUUID := signature.uuid, taskName := signature.name
    groupUUID := signature.groupUUID, state := stateRetry
    results := [], error := "" }

/-- Modelled from the spec: tasks.NewSuccessTaskState (not under src/), the
SUCCESS snapshot carrying the ordered result values. -/
def NewSuccessTaskState (signature : Signature) (results : List TaskResult) : TaskState :=
  { taskUUID := signature.uuid, taskName := signature.name
    groupUUID := signature.groupUUID, state := stateSuccess
    results := results, error := "" }

/-- Modelled from the spec: tasks.NewFailureTaskState (not under src/), the
FAILURE snapshot carrying the error string. -/
def NewFailureTaskState (signature : Signature) (err : String) : TaskState :=
  { taskUUID := signature.uuid, taskName := signature.name
    groupUUID := signature.groupUUID, state := stateFailure
    results := [], error := err }

/-- Field lookup in a decoded JSON object, first match wins as in
encoding/json. -/
def jsonField (fields : List (String × JsonVal)) (key : String) : Option JsonVal :=
  (fields.find? (fun p => p.1 = key)).map (fun p => p.2)

/-- Go unmarshalling of a string-typed struct field: a missing or null field
leaves the zero value, a string is taken as is, anything else is a type
error. -/
def decodeStrField (fields : List (String × JsonVal)) (key : String) :
    Except DecodeError String :=
  match jsonField fields key with
  | none => Except.ok ""
  | some JsonVal.null => Except.ok ""
  | some (JsonVal.str s) => Except.ok s
  | some _ => Except.error DecodeError.typeMismatch

/-- Go unmarshalling of a bool-typed struct field. -/
def decodeBoolField (fields : List (String × JsonVal)) (key : String) :
    Except DecodeError Bool :=
  match jsonField fields key with
  | none => Except.ok false
  | some JsonVal.null => Except.ok false
  | some (JsonVal.bool b) => Except.ok b
  | some _ => Except.error DecodeError.typeMismatch

/-- Elementwise decoding of a JSON array of strings. -/
def decodeStrElems : List JsonVal → Except DecodeError (List String)
  | [] => Except.ok []
  | JsonVal.str s :: rest => (decodeStrElems rest).map (fun ss => s :: ss)
  | _ :: _ => Except.error DecodeError.typeMismatch

/-- Go unmarshalling of a []string struct field. -/
def decodeStrListField (fields : List (String × JsonVal)) (key : String) :
    Except DecodeError (List String) :=
  match jsonField fields key with
  | none => Except.ok []
  | some JsonVal.null => Except.ok []
  | some (JsonVal.arr xs) => decodeStrElems xs
  | some _ => Except.error DecodeError.typeMismatch

/-- Decoding of the chord-trigger response body struct, one bool field tagged
"updated"; a missing field leaves the Go zero value false. -/
def decodeChordBody (body : Option JsonVal) : Except DecodeError Bool :=
  match body with
  | none => Except.error DecodeError.badJson
  | some JsonVal.null => Except.ok false
  | some (JsonVal.obj fields) => decodeBoolField fields "updated"
  | some _ => Except.error DecodeError.typeMismatch

/-- Modelled from the spec: the wire shape of GroupMeta (tasks package not
under src/) — group id, task UUID list and the chord latch. -/
def decodeGroupMeta (body : Option JsonVal) : Except DecodeError GroupMeta :=
  match body with
  | none => Except.error DecodeError.badJson
  | some JsonVal.null =>
    Except.ok { groupUUID := "", taskUUIDs := [], chordTriggered := false }
  | some (JsonVal.obj fields) => do
    let g ← decodeStrField fields "group_uuid"
    let ts ← decodeStrListField fields "task_uuids"
    let c ← decodeBoolField fields "chord_triggered"
    pure { groupUUID := g, taskUUIDs := ts, chordTriggered := c }
  | some _ => Except.error DecodeError.typeMismatch

/-- Modelled from the spec: the wire shape of one typed result value. -/
def decodeTaskResult (j : JsonVal) : Except DecodeError TaskResult :=
  match j with
  | JsonVal.null => Except.ok { type := "", value := JsonVal.null }
  | JsonVal.obj fields => do
    let t ← decodeStrField fields "type"
    pure { type := t, value := (jsonField fields "value").getD JsonVal.null }
  | _ => Except.error DecodeError.typeMismatch

/-- Elementwise decoding of a JSON array of result values. -/
def decodeResultElems : List JsonVal → Except DecodeError (List TaskResult)
  | [] => Except.ok []
  | j :: rest => do
    let r ← decodeTaskResult j
    let rs ← decodeResultElems rest
    pure (r :: rs)

/-- Modelled from the spec: the wire shape of one TaskState record.  A JSON
null element (a nil pointer in Go, on which the completion check would crash)
is rejected by the model. -/
def decodeTaskState (j : JsonVal) : Except DecodeError TaskState :=
  match j with
  | JsonVal.obj fields => do
    let u ← decodeStrField fields "task_uuid"
    let n ← decodeStrField fields "task_name"
    let g ← decodeStrField fields "group_uuid"
    let s ← decodeStrField fields "state"
    let rs ← (match jsonField fields "results" with
      | none => Except.ok []
      | some JsonVal.null => Except.ok []
      | some (JsonVal.arr xs) => decodeResultElems xs
      | some _ => Except.error DecodeError.typeMismatch)
    let e ← decodeStrField fields "error"
    pure { taskUUID := u, taskName := n, groupUUID := g, state := s
           results := rs, error := e }
  | _ => Except.error DecodeError.typeMismatch

/-- Elementwise decoding of a JSON array of TaskState records. -/
def decodeTaskStateElems : List JsonVal → Except DecodeError (List TaskState)
  | [] => Except.ok []
  | j :: rest => do
    let s ← decodeTaskState j
    let ss ← decodeTaskStateElems rest
    pure (s :: ss)

/-- Decoding of the bulk-fetch response body, a []*TaskState; null decodes to
the empty slice as in Go. -/
def decodeTaskStates (body : Option JsonVal) : Except DecodeError (List TaskState) :=
  match body with
  | none => Except.error DecodeError.badJson
  | some JsonVal.null => Except.ok []
  | some (JsonVal.arr xs) => decodeTaskStateElems xs
  | some _ => Except.error DecodeError.typeMismatch

/-- The PATCH request issued by TriggerChord. -/
def chordRequest (groupUUID : String) : Request :=
  { method := "PATCH"
    path := "/api/v1/groups/" ++ groupUUID ++ "/chord-triggered"
    query := []
    body := some (JsonVal.obj [("chord_triggered", JsonVal.bool true)]) }

/-- The POST request issued by SetStatePending. -/
def pendingRequest (signature : Signature) : Request :=
  { method := "POST"
    path := "/api/v1/groups/" ++ signature.groupUUID ++ "/tasks/" ++ signature.uuid
    query := []
    body := some (JsonVal.obj [("task_name", JsonVal.str signature.name)]) }

/-- The POST request issued by GetState. -/
def getStateRequest (taskUUID : String) : Request :=
  { method := "POST", path := "/api/v1/tasks/" ++ taskUUID
    query := [], body := none }

/-- The GET request issued by getGroupMeta. -/
def groupRequest (groupUUID : String) : Request :=
  { method := "GET", path := "/api/v1/groups/" ++ groupUUID
    query := [], body := none }

/-- The GET request issued by getStates, one repeated task_uuid query
parameter per task. -/
def tasksRequest (taskUUIDs : List String) : Request :=
  { method := "GET", path := "/api/v1/tasks"
    query := taskUUIDs.map (fun t => ("task_uuid", t)), body := none }

/-- The PATCH request issued by updateState: body carries status, and error
only when the snapshot's error string is non-empty. -/
def updateRequest (taskState : TaskState) : Request :=
  { method := "PATCH"
    path := "/api/v1/tasks/" ++ taskState.taskUUID
    query := []
    body := some (JsonVal.obj
      (if taskState.error = "" then [("status", JsonVal.str taskState.state)]
       else [("status", JsonVal.str taskState.state), ("error", JsonVal.str taskState.error)])) }

/-- TriggerChord: PATCH the chord latch, surface transport failures and
non-200 responses as errors, otherwise decode the updated flag from the
body. -/
def TriggerChord (store : Store) (groupUUID : String) :
    Except ApiError Bool × List Request :=
  let req := chordRequest groupUUID
  match store req with
  | Except.error e => (Except.error (ApiError.transport e), [req])
  | Except.ok resp =>
    if resp.statusCode ≠ 200 then
      (Except.error (ApiError.message ("unexpected response from API: " ++ resp.raw)), [req])
    else
      match decodeChordBody resp.body with
      | Except.error e =>
        (Except.error (ApiError.wrap "unable to decode response body" e), [req])
      | Except.ok updated => (Except.ok updated, [req])

/-- InitGroup: intentionally a no-op, group creation lives outside this
component. -/
def InitGroup (store : Store) (groupUUID : String) (taskUUIDs : List String) :
    Except ApiError Unit × List Request :=
  (Except.ok (), [])

/-- PurgeState: not implemented, returns nil. -/
def PurgeState (store : Store) (taskUUID : String) :
    Except ApiError Unit × List Request :=
  (Except.ok (), [])

/-- PurgeGroupMeta: not implemented, returns nil. -/
def PurgeGroupMeta (store : Store) (groupUUID : String) :
    Except ApiError Unit × List Request :=
  (Except.ok (), [])

/-- setExpirationTime: not implemented, returns nil. -/
def setExpirationTime (store : Store) (key : String) :
    Except ApiError Unit × List Request :=
  (Except.ok (), [])

/-- getGroupMeta: GET the group record, error on transport failure or non-200,
then decode GroupMeta from the body. -/
def getGroupMeta (store : Store) (groupUUID : String) :
    Except ApiError GroupMeta × List Request :=
  let req := groupRequest groupUUID
  match store req with
  | Except.error e => (Except.error (ApiError.transport e), [req])
  | Except.ok resp =>
    if resp.statusCode ≠ 200 then
      (Except.error (ApiError.message ("unexpected response from API: " ++ resp.raw)), [req])
    else
      match decodeGroupMeta resp.body with
      | Except.error e => (Except.error (ApiError.decode e), [req])
      | Except.ok groupMeta => (Except.ok groupMeta, [req])

/-- getStates: bulk fetch of task states; an empty UUID list fails at once
with the contract-violation message and no request is issued. -/
def getStates (store : Store) (taskUUIDs : List String) :
    Except ApiError (List TaskState) × List Request :=
  if taskUUIDs.length = 0 then
    (Except.error (ApiError.message "cannot get task states without at least one task id"), [])
  else
    let req := tasksRequest taskUUIDs
    match store req with
    | Except.error e => (Except.error (ApiError.transport e), [req])
    | Except.ok resp =>
      if resp.statusCode ≠ 200 then
        (Except.error (ApiError.message ("could not get task states for tasks: " ++
          String.intercalate "," taskUUIDs ++ "; unexpected response from API: " ++ resp.raw)), [req])
      else
        match decodeTaskStates resp.body with
        | Except.error e => (Except.error (ApiError.decode e), [req])
        | Except.ok states => (Except.ok states, [req])

/-- updateState: PATCH the task record with the snapshot's status (and error
when non-empty); error on transport failure or non-200. -/
def updateState (store : Store) (taskState : TaskState) :
    Except ApiError Unit × List Request :=
  let req := updateRequest taskState
  match store req with
  | Except.error e => (Except.error (ApiError.transport e), [req])
  | Except.ok resp =>
    if resp.statusCode ≠ 200 then
      (Except.error (ApiError.message ("could not update task (" ++ taskState.taskName ++
        ": " ++ taskState.taskUUID ++ ") state; unexpected response from API: " ++ resp.raw)), [req])
    else (Except.ok (), [req])

/-- The loop of GroupCompleted: count the task states whose status is
terminal.  The count is an Int because the Go counter is compared against an
int argument. -/
def countCompleted (states : List TaskState) : Int :=
  states.foldl (fun acc ts => if ts.IsCompleted then acc + 1 else acc) 0

/-- GroupCompleted: fetch the group record, bulk-fetch its task states, and
compare the number of completed states against the expected count. -/
def GroupCompleted (store : Store) (groupUUID : String) (groupTaskCount : Int) :
    Except ApiError Bool × List Request :=
  match getGroupMeta store groupUUID with
  | (Except.error e, reqs) => (Except.error e, reqs)
  | (Except.ok groupMeta, reqs₁) =>
    match getStates store groupMeta.taskUUIDs with
    | (Except.error e, reqs₂) => (Except.error e, reqs₁ ++ reqs₂)
    | (Except.ok taskStates, reqs₂) =>
      (Except.ok (countCompleted taskStates == groupTaskCount), reqs₁ ++ reqs₂)

/-- GroupTaskStates: fetch the group record, then bulk-fetch its task
states. -/
def GroupTaskStates (store : Store) (groupUUID : String) (groupTaskCount : Int) :
    Except ApiError (List TaskState) × List Request :=
  match getGroupMeta store groupUUID with
  | (Except.error e, reqs) => (Except.error e, reqs)
  | (Except.ok groupMeta, reqs₁) =>
    match getStates store groupMeta.taskUUIDs with
    | (res, reqs₂) => (res, reqs₁ ++ reqs₂)

/-- SetStatePending: create the task record via POST; stage_trigger tasks
bypass the store; success exactly on status 201. -/
def SetStatePending (store : Store) (signature : Signature) :
    Except ApiError Unit × List Request :=
  if signature.name = stageTrigger then (Except.ok (), [])
  else
    let req := pendingRequest signature
    match store req with
    | Except.error e => (Except.error (ApiError.transport e), [req])
    | Except.ok resp =>
      if resp.statusCode ≠ 201 then
        (Except.error (ApiError.message ("could not create task (" ++ signature.name ++
          ": " ++ signature.uuid ++ ") with pending state; unexpected response from API: " ++
          resp.raw)), [req])
      else (Except.ok (), [req])

/-- SetStateReceived: stage_trigger tasks bypass the store, otherwise update
with the RECEIVED snapshot. -/
def SetStateReceived (store : Store) (signature : Signature) :
    Except ApiError Unit × List Request :=
  if signature.name = stageTrigger then (Except.ok (), [])
  else updateState store (NewReceivedTaskState signature)

/-- SetStateStarted: stage_trigger tasks bypass the store, otherwise update
with the STARTED snapshot. -/
def SetStateStarted (store : Store) (signature : Signature) :
    Except ApiError Unit × List Request :=
  if signature.name = stageTrigger then (Except.ok (), [])
  else updateState store (NewStartedTaskState signature)

/-- SetStateRetry: stage_trigger tasks bypass the store, otherwise update with
the RETRY snapshot. -/
def SetStateRetry (store : Store) (signature : Signature) :
    Except ApiError Unit × List Request :=
  if signature.name = stageTrigger then (Except.ok (), [])
  else updateState store (NewRetryTaskState signature)

/-- SetStateSuccess: stage_trigger tasks bypass the store, otherwise update
with the SUCCESS snapshot built from the results. -/
def SetStateSuccess (store : Store) (signature : Signature) (results : List TaskResult) :
    Except ApiError Unit × List Request :=
  if signature.name = stageTrigger then (Except.ok (), [])
  else updateState store (NewSuccessTaskState signature results)

/-- SetStateFailure: stage_trigger tasks bypass the store, otherwise update
with the FAILURE snapshot carrying the error string. -/
def SetStateFailure (store : Store) (signature : Signature) (err : String) :
    Except ApiError Unit × List Request :=
  if signature.name = stageTrigger then (Except.ok (), [])
  else updateState store (NewFailureTaskState signature err)

/-- GetState: POST the single-task fetch; error on transport failure or
non-200.  The source then declares a nil *TaskState pointer and hands it to
json.Decoder.Decode, which reports json.InvalidUnmarshalError for a nil
destination after reading the value, so a syntactically invalid body fails
with the syntax error and every valid body fails with InvalidUnmarshalError:
the decoded-state branch is unreachable. -/
def GetState (store : Store) (taskUUID : String) :
    Except ApiError TaskState × List Request :=
  let req := getStateRequest taskUUID
  match store req with
  | Except.error e => (Except.error (ApiError.transport e), [req])
  | Except.ok resp =>
    if resp.statusCode ≠ 200 then
      (Except.error (ApiError.message ("unexpected response from API: " ++ resp.raw)), [req])
    else
      match resp.body with
      | none => (Except.error (ApiError.decode DecodeError.badJson), [req])
      | some _ => (Except.error (ApiError.decode DecodeError.invalidUnmarshal), [req])

/-- Modelled from the spec: the configuration record (config package, not
under src/); only the ResultBackend base endpoint is read. -/
structure Config where
  resultBackend : String

/-- The Backend value: the common embedded backend is elided, only the host
captured from the configuration remains. -/
structure Backend where
  host : String

/-- initClient over the package-global HTTPClient, reduced to the base
endpoint it was configured with (none while no client exists): the global is
assigned only when it is still nil. -/
def initClient (host : String) (httpClient : Option String) : Option String :=
  match httpClient with
  | none => some host
  | some c => some c

/-- New: build the Backend from the configuration and initialize the global
client, threading the global HTTPClient explicitly. -/
def New (cnf : Config) (httpClient : Option String) : Backend × Option String :=
  let backend : Backend := { host := cnf.resultBackend }
  (backend, initClient backend.host httpClient)

/-- A store that always answers 200 with an empty body. -/
def okStore : Store := fun _ =>
  Except.ok { statusCode := 200, raw := "", body := none }

/-- A store that always answers 201 with an empty body. -/
def createdStore : Store := fun _ =>
  Except.ok { statusCode := 201, raw := "", body := none }

/-- A store that always answers 404 with raw body "gone". -/
def gm404Store : Store := fun _ =>
  Except.ok { statusCode := 404, raw := "gone", body := none }

/-- A store that always answers 500 with raw body "gone". -/
def gm500Store : Store := fun _ =>
  Except.ok { statusCode := 500, raw := "gone", body := none }

/-- Group record served for the completion-check example: two tasks. -/
def groupBodyW : JsonVal :=
  JsonVal.obj [("group_uuid", JsonVal.str "g")
    , ("task_uuids", JsonVal.arr [JsonVal.str "t1", JsonVal.str "t2"])
    , ("chord_triggered", JsonVal.bool false)]

/-- Task states served for the completion-check example: one SUCCESS, one
FAILURE. -/
def statesBodyW : JsonVal :=
  JsonVal.arr
    [ JsonVal.obj [("task_uuid", JsonVal.str "t1"), ("state", JsonVal.str "SUCCESS")]
    , JsonVal.obj [("task_uuid", JsonVal.str "t2"), ("state", JsonVal.str "FAILURE")]]

/-- A store serving the two-task group and its two terminal task states. -/
def groupStoreW : Store := fun req =>
  if req.path = "/api/v1/groups/g" then
    Except.ok { statusCode := 200, raw := "", body := some groupBodyW }
  else
    Except.ok { statusCode := 200, raw := "", body := some statesBodyW }

/-- The decoded group record of groupBodyW. -/
def groupMetaW : GroupMeta :=
  { groupUUID := "g", taskUUIDs := ["t1", "t2"], chordTriggered := false }

/-- The decoded first task state of statesBodyW. -/
def stateW1 : TaskState :=
  { taskUUID := "t1", taskName := "", groupUUID := "", state := "SUCCESS"
    results := [], error := "" }

/-- The decoded second task state of statesBodyW. -/
def stateW2 : TaskState :=
  { taskUUID := "t2", taskName := "", groupUUID := "", state := "FAILURE"
    results := [], error := "" }

/-- A task-state body a correct single-task fetch would decode. -/
def taskBodyW : JsonVal :=
  JsonVal.obj [("task_uuid", JsonVal.str "t1"), ("task_name", JsonVal.str "add")
    , ("state", JsonVal.str "SUCCESS")]

/-- A store answering the single-task fetch with 200 and a valid task-state
body. -/
def getStateStoreW : Store := fun _ =>
  Except.ok { statusCode := 200, raw := "ok", body := some taskBodyW }

/-- An ordinary signature, not a stage trigger. -/
def sigFoo : Signature := { name := "add", uuid := "t1", groupUUID := "g" }

/-- A stage-trigger signature. -/
def sigStage : Signature := { name := "stage_trigger", uuid := "t9", groupUUID := "g" }

/-- A sample result value. -/
def resultW : TaskResult := { type := "int", value := JsonVal.num 42 }

/-- The fold of GroupCompleted counts exactly the completed task states. -/
theorem countCompleted_eq_filter (states : List TaskState) :
    countCompleted states = ((states.filter (fun ts => ts.IsCompleted)).length : Int) := by
  unfold countCompleted
  suffices h : ∀ acc : Int, states.foldl
      (fun acc ts => if ts.IsCompleted then acc + 1 else acc) acc =
      acc + ((states.filter (fun ts => ts.IsCompleted)).length : Int) by
    simpa using h 0
  induction states with
  | nil => intro acc; simp
  | cons hd tl ih =>
    intro acc
    by_cases hc : hd.IsCompleted <;>
      simp [List.filter_cons, hc, ih] <;> push_cast <;> ring

/-- C1: TriggerChord propagates the store's decision faithfully: it returns
ok true exactly when the exchange succeeds with status 200 and the body
decodes to updated = true, ok false exactly when that body decodes to
updated = false, and it returns an error exactly when the transport fails,
the status is not 200, or the body does not decode. -/
theorem triggerChord_propagates_store_decision (store : Store) (groupUUID : String) :
    ((TriggerChord store groupUUID).1 = Except.ok true ↔
      ∃ resp, store (chordRequest groupUUID) = Except.ok resp ∧
        resp.statusCode = 200 ∧ decodeChordBody resp.body = Except.ok true) ∧
    ((TriggerChord store groupUUID).1 = Except.ok false ↔
      ∃ resp, store (chordRequest groupUUID) = Except.ok resp ∧
        resp.statusCode = 200 ∧ decodeChordBody resp.body = Except.ok false) ∧
    ((∃ e, (TriggerChord store groupUUID).1 = Except.error e) ↔
      ¬ ∃ resp b, store (chordRequest groupUUID) = Except.ok resp ∧
        resp.statusCode = 200 ∧ decodeChordBody resp.body = Except.ok b) := by
  unfold TriggerChord
  cases h : store (chordRequest groupUUID) with
  | error e => simp [h]
  | ok resp =>
    by_cases hs : resp.statusCode = 200
    · cases hd : decodeChordBody resp.body with
      | error de => simp [h, hs, hd]
      | ok b => cases b <;> simp [h, hs, hd]
    · simp [h, hs]

/-- C2: when both fetches succeed, GroupCompleted returns true exactly when
the number of fetched task states in a terminal status (SUCCESS or FAILURE)
equals the expected count, and false exactly otherwise, independently of the
success/failure mix. -/
theorem groupCompleted_counts_terminal (store : Store) (groupUUID : String) (n : Int)
    (groupMeta : GroupMeta) (states : List TaskState)
    (hmeta : (getGroupMeta store groupUUID).1 = Except.ok groupMeta)
    (hstates : (getStates store groupMeta.taskUUIDs).1 = Except.ok states) :
    ((GroupCompleted store groupUUID n).1 = Except.ok true ↔
      ((states.filter (fun ts => ts.IsCompleted)).length : Int) = n) ∧
    ((GroupCompleted store groupUUID n).1 = Except.ok false ↔
      ((states.filter (fun ts => ts.IsCompleted)).length : Int) ≠ n) := by
  unfold GroupCompleted
  rcases hg : getGroupMeta store groupUUID with ⟨rg, qg⟩
  rw [hg] at hmeta
  simp only at hmeta
  subst hmeta
  rcases hst : getStates store groupMeta.taskUUIDs with ⟨rs, qs⟩
  rw [hst] at hstates
  simp only at hstates
  subst hstates
  simp only [hst]
  constructor
  · simp [countCompleted_eq_filter]
  · simp [countCompleted_eq_filter]

/-- C2 witness: a two-task group with one SUCCESS and one FAILURE is complete
at expected count 2. -/
theorem groupCompleted_counts_terminal_witness :
    (GroupCompleted groupStoreW "g" 2).1 = Except.ok true :=
  (groupCompleted_counts_terminal groupStoreW "g" 2 groupMetaW [stateW1, stateW2]
    rfl rfl).1.mpr (by decide)

/-- C3: the bulk task-state fetch on an empty UUID list fails immediately
with the caller-contract-violation error and issues no request. -/
theorem getStates_empty_no_request (store : Store) :
    getStates store [] =
      (Except.error (ApiError.message "cannot get task states without at least one task id"),
        []) := rfl

/-- C4 counterexample: a 404 answer to the group fetch produces exactly the
same error value as a 500 answer with the same body — the generic
unexpected-response message — so there is no NotFound classification
distinguishable from the generic one. -/
theorem getGroupMeta_404_not_classified :
    (getGroupMeta gm404Store "g").1 = (getGroupMeta gm500Store "g").1 ∧
    (getGroupMeta gm404Store "g").1 =
      Except.error (ApiError.message "unexpected response from API: gone") :=
  ⟨rfl, rfl⟩

/-- C4 amended: every non-200 answer to the group fetch, 404 included, yields
the one generic error built from the raw response body. -/
theorem getGroupMeta_non200_generic (store : Store) (groupUUID : String) (resp : Response)
    (h : store (groupRequest groupUUID) = Except.ok resp) (hs : resp.statusCode ≠ 200) :
    (getGroupMeta store groupUUID).1 =
      Except.error (ApiError.message ("unexpected response from API: " ++ resp.raw)) := by
  simp only [getGroupMeta, h]
  simp [hs]

/-- C4 witness: the generic error on a concrete 404 answer. -/
theorem getGroupMeta_non200_generic_witness :
    (getGroupMeta gm404Store "g").1 =
      Except.error (ApiError.message ("unexpected response from API: " ++ "gone")) :=
  getGroupMeta_non200_generic gm404Store "g"
    { statusCode := 404, raw := "gone", body := none } rfl (by decide)

/-- C5: on a 200 answer with a valid TaskState body, GetState still returns an
error — the source hands a nil *TaskState pointer to json.Decoder.Decode, so
the decode always fails with InvalidUnmarshalError and the claimed success
path is unreachable. -/
theorem getState_nil_destination_bug :
    (GetState getStateStoreW "t1").1 =
      Except.error (ApiError.decode DecodeError.invalidUnmarshal) := rfl

/-- C6 counterexample: the update sent by SetStateSuccess is identical whether
the results list is empty or not, and its body carries only the status field —
the result values are never submitted to the store. -/
theorem setStateSuccess_drops_results :
    (SetStateSuccess okStore sigFoo [resultW]).2 = (SetStateSuccess okStore sigFoo []).2 ∧
    (SetStateSuccess okStore sigFoo [resultW]).2 =
      [{ method := "PATCH", path := "/api/v1/tasks/t1", query := []
         body := some (JsonVal.obj [("status", JsonVal.str "SUCCESS")]) }] :=
  ⟨rfl, rfl⟩

/-- C6 amended: for a non-stage-trigger signature, SetStateSuccess issues the
one SUCCESS update whose body carries only the status field (the result values
are not transmitted), and SetStateFailure issues the one FAILURE update whose
body carries the error string when it is non-empty. -/
theorem setState_update_bodies (store : Store) (signature : Signature)
    (results : List TaskResult) (err : String) (hname : signature.name ≠ stageTrigger) :
    (SetStateSuccess store signature results).2 =
      [updateRequest (NewSuccessTaskState signature results)] ∧
    (updateRequest (NewSuccessTaskState signature results)).body =
      some (JsonVal.obj [("status", JsonVal.str stateSuccess)]) ∧
    (SetStateFailure store signature err).2 =
      [updateRequest (NewFailureTaskState signature err)] ∧
    (err ≠ "" → (updateRequest (NewFailureTaskState signature err)).body =
      some (JsonVal.obj [("status", JsonVal.str stateFailure), ("error", JsonVal.str err)])) := by
  refine ⟨?_, ?_, ?_, ?_⟩
  · simp only [SetStateSuccess, if_neg hname, updateState]
    cases h : store (updateRequest (NewSuccessTaskState signature results)) with
    | error e => rfl
    | ok resp => by_cases hs : resp.statusCode = 200 <;> simp [hs]
  · rfl
  · simp only [SetStateFailure, if_neg hname, updateState]
    cases h : store (updateRequest (NewFailureTaskState signature err)) with
    | error e => rfl
    | ok resp => by_cases hs : resp.statusCode = 200 <;> simp [hs]
  · intro he
    simp [updateRequest, NewFailureTaskState, he]

/-- C6 witness: the concrete SUCCESS and FAILURE updates of an ordinary
signature. -/
theorem setState_update_bodies_witness :
    (SetStateSuccess okStore sigFoo [resultW]).2 =
      [updateRequest (NewSuccessTaskState sigFoo [resultW])] ∧
    (updateRequest (NewFailureTaskState sigFoo "boom")).body =
      some (JsonVal.obj [("status", JsonVal.str stateFailure), ("error", JsonVal.str "boom")]) := by
  have h := setState_update_bodies okStore sigFoo [resultW] "boom" (by decide)
  exact ⟨h.1, h.2.2.2 (by decide)⟩

/-- C7 counterexample: the create-task request of an ordinary signature goes
to /api/v1/groups/g/tasks/t1, which is not the path /tasks/g/t1 the claim
states. -/
theorem setStatePending_path_differs :
    (SetStatePending okStore sigFoo).2.map (fun r => r.path) = ["/api/v1/groups/g/tasks/t1"] ∧
    ("/api/v1/groups/g/tasks/t1" : String) ≠ "/tasks/g/t1" :=
  ⟨rfl, by decide⟩

/-- C7 amended: for a non-stage-trigger signature, SetStatePending issues
exactly one POST to /api/v1/groups/(groupUUID)/tasks/(taskUUID) whose body
carries the task name, and when the store answers, it succeeds exactly on
status 201. -/
theorem setStatePending_request_contract (store : Store) (signature : Signature)
    (hname : signature.name ≠ stageTrigger) :
    (SetStatePending store signature).2 = [pendingRequest signature] ∧
    (pendingRequest signature).method = "POST" ∧
    (pendingRequest signature).path =
      "/api/v1/groups/" ++ signature.groupUUID ++ "/tasks/" ++ signature.uuid ∧
    (pendingRequest signature).body =
      some (JsonVal.obj [("task_name", JsonVal.str signature.name)]) ∧
    ∀ resp, store (pendingRequest signature) = Except.ok resp →
      ((SetStatePending store signature).1 = Except.ok () ↔ resp.statusCode = 201) := by
  refine ⟨?_, rfl, rfl, rfl, ?_⟩
  · simp only [SetStatePending, if_neg hname]
    cases h : store (pendingRequest signature) with
    | error e => rfl
    | ok resp => by_cases hs : resp.statusCode = 201 <;> simp [hs]
  · intro resp h
    simp only [SetStatePending, if_neg hname, h]
    by_cases hs : resp.statusCode = 201 <;> simp [hs]

/-- C7 witness: against a store answering 201, the create succeeds. -/
theorem setStatePending_request_contract_witness :
    (SetStatePending createdStore sigFoo).1 = Except.ok () :=
  ((setStatePending_request_contract createdStore sigFoo (by decide)).2.2.2.2
    { statusCode := 201, raw := "", body := none } rfl).mpr rfl

/-- C8: InitGroup, PurgeState and PurgeGroupMeta return nil for every input
against every store and issue no request at all. -/
theorem initGroup_purge_noops (store : Store) (groupUUID taskUUID : String)
    (taskUUIDs : List String) :
    InitGroup store groupUUID taskUUIDs = (Except.ok (), []) ∧
    PurgeState store taskUUID = (Except.ok (), []) ∧
    PurgeGroupMeta store groupUUID = (Except.ok (), []) :=
  ⟨rfl, rfl, rfl⟩

/-- C9: for a signature named stage_trigger, all six state-transition
operations return nil immediately and issue no request against any store. -/
theorem stageTrigger_bypasses_store (store : Store) (signature : Signature)
    (results : List TaskResult) (err : String) (hname : signature.name = stageTrigger) :
    SetStatePending store signature = (Except.ok (), []) ∧
    SetStateReceived store signature = (Except.ok (), []) ∧
    SetStateStarted store signature = (Except.ok (), []) ∧
    SetStateRetry store signature = (Except.ok (), []) ∧
    SetStateSuccess store signature results = (Except.ok (), []) ∧
    SetStateFailure store signature err = (Except.ok (), []) := by
  refine ⟨?_, ?_, ?_, ?_, ?_, ?_⟩ <;>
    simp [SetStatePending, SetStateReceived, SetStateStarted, SetStateRetry,
      SetStateSuccess, SetStateFailure, hname]

/-- C9 witness: a concrete stage_trigger signature bypasses the store on
SetStateSuccess. -/
theorem stageTrigger_bypasses_store_witness :
    SetStateSuccess okStore sigStage [resultW] = (Except.ok (), []) :=
  (stageTrigger_bypasses_store okStore sigStage [resultW] "boom" rfl).2.2.2.2.1

/-- C10: initClient assigns the global client only when it is still nil, so
the endpoint comes from the first Backend constructed: constructing a second
Backend with a different ResultBackend leaves the global endpoint unchanged,
even though the second Backend records its own host. -/
theorem globalClient_first_backend_wins (c₁ c₂ : Config) :
    (New c₁ none).2 = some c₁.resultBackend ∧
    (New c₂ (New c₁ none).2).2 = some c₁.resultBackend ∧
    (New c₂ (New c₁ none).2).1.host = c₂.resultBackend :=
  ⟨rfl, rfl, rfl⟩
